import Mathlib

/-!
Verification of the aws-nova-canvas-mcp image-generation server.

Shallow embedding of the storage layer (src/npx/src/utils/image.ts), the
model-invocation layer (src/npx/src/utils/bedrock.ts) and the seven tool
handlers (src/npx/src/tools/*.ts).

External collaborators (node fs, crypto.randomUUID, Buffer base64 codecs,
the child-process viewer launch and the Bedrock wire transport) are modelled
as an explicit environment `Env` plus an explicit world state `World`:
the file system is a path-to-bytes association list, the in-memory image
cache a key-to-bytes association list, and `crypto.randomUUID` a fresh-name
supply `idGen` applied to a monotone counter (randomness is determinized as
an injective supply; collision-freedom of UUIDs becomes injectivity of
`idGen`).  Fallible operations return `Except`.
-/

namespace NovaCanvas

/-- Raw image bytes (a node `Buffer` is modelled as a list of byte values). -/
abbrev Bytes := List Nat

/-- The error classes the code can raise, by origin:
`readErr` is a node `fs.readFile` failure for a referenced input image,
`remoteErr` a failure of `client.send` in bedrock.ts, `noImageData` the
`new Error('No image data in response')` thrown in bedrock.ts, and
`writeErr` a `fs.writeFile` failure inside `saveImage`. -/
inductive Err where
  | readErr (path : String)
  | remoteErr (msg : String)
  | noImageData
  | writeErr (path : String)
deriving DecidableEq, Repr

/-- The `.message` of the underlying JS `Error` object (read/write messages
come from node's fs layer and are modelled with their usual shape). -/
def Err.message : Err → String
  | .readErr p => "ENOENT: no such file or directory, open " ++ p
  | .remoteErr m => m
  | .noImageData => "No image data in response"
  | .writeErr p => "EACCES: permission denied, open " ++ p

/-- Decidable equality of `Except` results, for evaluating the model on
concrete inputs. -/
instance {e a : Type} [DecidableEq e] [DecidableEq a] :
    DecidableEq (Except e a) := fun x y =>
  match x, y with
  | .ok u, .ok v => if h : u = v then .isTrue (by simp [h]) else .isFalse (by simp [h])
  | .error u, .error v => if h : u = v then .isTrue (by simp [h]) else .isFalse (by simp [h])
  | .ok _, .error _ => .isFalse (by simp)
  | .error _, .ok _ => .isFalse (by simp)

/-- The JSON request body each tool assembles and submits to the remote
model, one constructor per taskType, carrying exactly the fields the tool
places into the payload (src/npx/src/tools/*.ts). -/
inductive Payload where
  | textImage (text negativeText : String)
      (height width numberOfImages cfgScale seed : ℚ)
  | inpaint (image text negativeText maskPrompt : String)
      (numberOfImages height width cfgScale : ℚ)
  | outpaint (image maskImage text negativeText outpaintingMode : String)
      (numberOfImages height width cfgScale : ℚ)
  | variation (images : List String) (text negativeText : String)
      (similarityStrength numberOfImages height width cfgScale : ℚ)
  | conditioning (image text negativeText controlMode : String)
      (numberOfImages height width cfgScale : ℚ)
  | colorGuided (text negativeText : String) (colors : List String)
      (referenceImage : Option String) (height width numberOfImages cfgScale : ℚ)
  | bgRemoval (image : String)
deriving DecidableEq, Repr

/-- What the remote Bedrock model does for one invocation: either
`client.send` rejects with an error message, or it resolves and the decoded
JSON body has an optional `images` array and an optional `image` field
(`none` models an absent JSON field). -/
inductive RemoteOutcome where
  | sendErr (msg : String)
  | response (images : Option (List String)) (image : Option String)
deriving DecidableEq, Repr

/-- The deterministic environment: process cwd, the `crypto.randomUUID`
supply, the Buffer base64 decoder/encoder, and whether the platform
"open file with default viewer" command fails for a given path. -/
structure Env where
  cwd : String
  idGen : Nat → String
  b64 : String → Bytes
  b64enc : Bytes → String
  viewerFails : String → Bool

/-- Mutable world state threaded through every operation: the file system,
the set of existing directories, the paths on which `fs.writeFile` fails,
the in-memory `imageCache`, the `crypto.randomUUID` counter, the number of
remote invocations performed, the request bodies submitted to the remote
model, and the `console.error` log. -/
structure World where
  files : List (String × Bytes)
  dirs : List String
  badWrites : List String
  cache : List (String × Bytes)
  nextId : Nat
  remoteCalls : Nat
  sent : List Payload
  errLog : List String
deriving DecidableEq, Repr

/-- `console.error`: push a message on the log. -/
def logErr (w : World) (m : String) : World :=
  { w with errLog := m :: w.errLog }

/-- `path.join(process.cwd(), 'images')` — the module-level default
directory of image.ts. -/
def imagesDir (env : Env) : String := env.cwd ++ "/images"

/-- Split a path on slashes (structural worker over the char list). -/
def splitSlashAux : List Char → List Char → List String
  | [], acc => [String.mk acc.reverse]
  | c :: cs, acc =>
    if c = '/' then String.mk acc.reverse :: splitSlashAux cs []
    else splitSlashAux cs (c :: acc)

/-- Split a path into its slash-separated segments. -/
def splitSlash (p : String) : List String := splitSlashAux p.data []

/-- Rejoin path segments with slashes. -/
def joinSlash : List String → String
  | [] => ""
  | [x] => x
  | x :: xs => x ++ "/" ++ joinSlash xs

/-- `path.dirname` for slash-separated paths. -/
def dirname (p : String) : String := joinSlash (splitSlash p).dropLast

/-- All ancestor paths created by `fs.mkdir(dir, {recursive: true})`. -/
def prefixesOf (d : String) : List String :=
  let parts := splitSlash d
  (List.range parts.length).map (fun i => joinSlash (parts.take (i + 1)))

/-- The `ImageResponse` record of src/npx/src/types.ts returned by
`saveImage`. -/
structure ImageResponse where
  imageId : String
  imagePath : String
  url : String
deriving DecidableEq, Repr

/-- `getImage` (image.ts lines 20-39): cache hit returns immediately;
on a miss, read `<imagesDir>/<imageId>.png`, populate the cache on success,
and on failure log and throw `Image <id> not found`. -/
def getImage (env : Env) (imageId : String) (w : World) :
    Except String Bytes × World :=
  match w.cache.lookup imageId with
  | some b => (.ok b, w)
  | none =>
    let imagePath := imagesDir env ++ "/" ++ imageId ++ ".png"
    match w.files.lookup imagePath with
    | some imageData => (.ok imageData, { w with cache := (imageId, imageData) :: w.cache })
    | none =>
      (.error ("Image " ++ imageId ++ " not found"),
       logErr w ("Error retrieving image " ++ imageId ++ ":"))

/-- `outputPath || path.join(imagesDir, imageId + '.png')` — JS string
truthiness: the empty string is falsy, every other string is truthy. -/
def resolvePath (env : Env) (imageId outputPath : String) : String :=
  if outputPath = "" then imagesDir env ++ "/" ++ imageId ++ ".png" else outputPath

/-- `if (!fs.existsSync(dir)) await mkdirAsync(dir, {recursive: true})`:
a no-op when the directory exists, else all missing ancestors are created;
never an error. -/
def ensureDir (w : World) (dir : String) : World :=
  if w.dirs.contains dir then w else { w with dirs := prefixesOf dir ++ w.dirs }

/-- `saveImage` (image.ts lines 41-93): generate a fresh id, resolve the
effective path, ensure its directory exists, write the bytes (failing paths
are in `badWrites`; a failure is logged and rethrown), insert into the
cache, optionally fire the viewer command whose failure is only logged,
and return the record with a `file://` locator. -/
def saveImage (env : Env) (imageBytes : Bytes) (openBrowser : Bool)
    (outputPath : String) (w : World) : Except Err ImageResponse × World :=
  let imageId := env.idGen w.nextId
  let imagePath := resolvePath env imageId outputPath
  let w2 := ensureDir { w with nextId := w.nextId + 1 } (dirname imagePath)
  if w2.badWrites.contains imagePath then
    (.error (.writeErr imagePath), logErr w2 "Error saving image:")
  else
    let w3 := { w2 with files := (imagePath, imageBytes) :: w2.files,
                        cache := (imageId, imageBytes) :: w2.cache }
    let w4 := if openBrowser && env.viewerFails imagePath then
                logErr w3 ("Error opening image: " ++ imagePath)
              else w3
    (.ok { imageId := imageId, imagePath := imagePath, url := "file://" ++ imagePath }, w4)

/-- JS `a || b` on the two candidate image fields: `a` wins when it is
truthy (present and non-empty), otherwise the result is `b`. -/
def jsOr (a b : Option String) : Option String :=
  match a with
  | some s => if s = "" then b else some s
  | none => b

/-- `generateImage` (bedrock.ts lines 12-37): serialize and send the body
(recorded in the world as one more remote call), then extract
`responseBody.images?.[0] || responseBody.image`; when that is falsy
(`undefined` or the empty string) throw `No image data in response`, else
base64-decode it; a `client.send` rejection propagates as a remote error. -/
def generateImage (env : Env) (body : Payload) (remote : RemoteOutcome)
    (w : World) : Except Err Bytes × World :=
  let w1 := { w with remoteCalls := w.remoteCalls + 1, sent := body :: w.sent }
  match remote with
  | .sendErr m => (.error (.remoteErr m), logErr w1 "Error generating image:")
  | .response images image =>
    match jsOr (images.bind List.head?) image with
    | none => (.error .noImageData, logErr w1 "Error generating image:")
    | some s =>
      if s = "" then (.error .noImageData, logErr w1 "Error generating image:")
      else (.ok (env.b64 s), w1)

/-- `fs.readFile` as used by the tool handlers: the bytes at the path, or
an `ENOENT`-class read error when the path is absent. -/
def readFile (w : World) (p : String) : Except Err Bytes :=
  match w.files.lookup p with
  | some b => .ok b
  | none => .error (.readErr p)

/-- The for-loop of image_variation.ts lines 46-50: read every referenced
image in order and base64-encode it; the first failing read aborts the
whole loop with its error. -/
def readImages (env : Env) (w : World) : List String → Except Err (List String)
  | [] => .ok []
  | p :: ps =>
    match readFile w p with
    | .error e => .error e
    | .ok buf =>
      match readImages env w ps with
      | .error e => .error e
      | .ok rest => .ok (env.b64enc buf :: rest)

/-- One item of a `CallToolResult`'s `content` array. -/
structure ContentItem where
  type : String
  text : String
deriving DecidableEq, Repr

/-- The MCP `CallToolResult` every tool handler returns. -/
structure CallToolResult where
  content : List ContentItem
deriving DecidableEq, Repr

/-- `{ content: [{ type: "text", text: t }] }` — the only result shape any
handler ever builds, for success and failure alike. -/
def textResult (t : String) : CallToolResult :=
  { content := [{ type := "text", text := t }] }

/-- The shared tail of every tool handler after its input reads: invoke the
remote model, save the produced bytes, and format a textual success
(`sOk ++ savedPath`) or error (`ePfx ++ error.message`, after a
`console.error` with the handler's log tag) result; both `generateImage`
and `saveImage` failures land in the handler's catch block. -/
def runGenerateAndSave (env : Env) (sOk ePfx logTag : String) (body : Payload)
    (openBrowser : Bool) (outputPath : String) (remote : RemoteOutcome)
    (w : World) : CallToolResult × World :=
  match generateImage env body remote w with
  | (.error e, w1) => (textResult (ePfx ++ e.message), logErr w1 logTag)
  | (.ok imageBytes, w1) =>
    match saveImage env imageBytes openBrowser outputPath w1 with
    | (.error e, w2) => (textResult (ePfx ++ e.message), logErr w2 logTag)
    | (.ok imageInfo, w2) => (textResult (sOk ++ imageInfo.imagePath), w2)

/-- Validated parameters of text_to_image (TextToImageSchema with all
defaults applied; zod `number` fields are modelled as rationals). -/
structure TextToImageParams where
  prompt : String
  output_path : String
  negative_prompt : String
  height : ℚ
  width : ℚ
  num_images : ℚ
  cfg_scale : ℚ
  seed : ℚ
  open_browser : Bool
deriving DecidableEq, Repr

/-- Validated parameters of inpainting (InpaintingSchema). -/
structure InpaintingParams where
  image_path : String
  prompt : String
  mask_prompt : String
  output_path : String
  negative_prompt : String
  height : ℚ
  width : ℚ
  cfg_scale : ℚ
  open_browser : Bool
deriving DecidableEq, Repr

/-- Validated parameters of outpainting (OutpaintingSchema). -/
structure OutpaintingParams where
  prompt : String
  output_path : String
  image_path : String
  mask_image_path : String
  negative_prompt : String
  height : ℚ
  width : ℚ
  outpainting_mode : String
  cfg_scale : ℚ
  open_browser : Bool
deriving DecidableEq, Repr

/-- Validated parameters of image_variation (ImageVariationSchema). -/
structure ImageVariationParams where
  image_paths : List String
  prompt : String
  negative_prompt : String
  similarity_strength : ℚ
  height : ℚ
  width : ℚ
  cfg_scale : ℚ
  open_browser : Bool
  output_path : String
deriving DecidableEq, Repr

/-- Validated parameters of image_conditioning (ImageConditioningSchema). -/
structure ImageConditioningParams where
  image_path : String
  prompt : String
  output_path : String
  negative_prompt : String
  control_mode : String
  height : ℚ
  width : ℚ
  cfg_scale : ℚ
  open_browser : Bool
deriving DecidableEq, Repr

/-- Validated parameters of color_guided_generation
(ColorGuidedGenerationSchema; `reference_image_path` is optional). -/
structure ColorGuidedGenerationParams where
  prompt : String
  colors : List String
  output_path : String
  reference_image_path : Option String
  negative_prompt : String
  height : ℚ
  width : ℚ
  cfg_scale : ℚ
  open_browser : Bool
deriving DecidableEq, Repr

/-- Validated parameters of background_removal (BackgroundRemovalSchema). -/
structure BackgroundRemovalParams where
  image_path : String
  output_path : String
  open_browser : Bool
deriving DecidableEq, Repr

/-- `textToImage` (text_to_image.ts): no input reads; the body carries the
caller's `num_images` as `numberOfImages`. -/
def textToImage (env : Env) (p : TextToImageParams) (remote : RemoteOutcome)
    (w : World) : CallToolResult × World :=
  runGenerateAndSave env
    "Image generated successfully. Saved location: "
    "Error occurred while generating image: "
    "Error in text to image generation:"
    (.textImage p.prompt p.negative_prompt p.height p.width p.num_images
      p.cfg_scale p.seed)
    p.open_browser p.output_path remote w

/-- `inpainting` (inpainting.ts): read and encode the original image, then
the common generate-and-save tail; a read failure is caught by the
handler's catch block before any remote call. -/
def inpainting (env : Env) (p : InpaintingParams) (remote : RemoteOutcome)
    (w : World) : CallToolResult × World :=
  match readFile w p.image_path with
  | .error e =>
    (textResult ("Error occurred during inpainting: " ++ e.message),
     logErr w "Error in inpainting:")
  | .ok imageBuffer =>
    runGenerateAndSave env
      "Inpainting completed successfully. Saved location: "
      "Error occurred during inpainting: "
      "Error in inpainting:"
      (.inpaint (env.b64enc imageBuffer) p.prompt p.negative_prompt
        p.mask_prompt 1 p.height p.width p.cfg_scale)
      p.open_browser p.output_path remote w

/-- `outpainting` (outpainting.ts): read the original image then the mask
image, in that order; the first failing read aborts. -/
def outpainting (env : Env) (p : OutpaintingParams) (remote : RemoteOutcome)
    (w : World) : CallToolResult × World :=
  match readFile w p.image_path with
  | .error e =>
    (textResult ("Error occurred during outpainting: " ++ e.message),
     logErr w "Error in outpainting:")
  | .ok imageBuffer =>
    match readFile w p.mask_image_path with
    | .error e =>
      (textResult ("Error occurred during outpainting: " ++ e.message),
       logErr w "Error in outpainting:")
    | .ok maskBuffer =>
      runGenerateAndSave env
        "Outpainting completed successfully. Saved location: "
        "Error occurred during outpainting: "
        "Error in outpainting:"
        (.outpaint (env.b64enc imageBuffer) (env.b64enc maskBuffer) p.prompt
          p.negative_prompt p.outpainting_mode 1 p.height p.width p.cfg_scale)
        p.open_browser p.output_path remote w

/-- `imageVariation` (image_variation.ts): read and encode every path of
`image_paths` in order, then the common generate-and-save tail. -/
def imageVariation (env : Env) (p : ImageVariationParams)
    (remote : RemoteOutcome) (w : World) : CallToolResult × World :=
  match readImages env w p.image_paths with
  | .error e =>
    (textResult ("Error occurred during image variation: " ++ e.message),
     logErr w "Error in image variation:")
  | .ok images =>
    runGenerateAndSave env
      "Image variation generated successfully. Saved location: "
      "Error occurred during image variation: "
      "Error in image variation:"
      (.variation images p.prompt p.negative_prompt p.similarity_strength
        1 p.height p.width p.cfg_scale)
      p.open_browser p.output_path remote w

/-- `imageConditioning` (image_conditioning.ts): read and encode the
reference image, then the common generate-and-save tail. -/
def imageConditioning (env : Env) (p : ImageConditioningParams)
    (remote : RemoteOutcome) (w : World) : CallToolResult × World :=
  match readFile w p.image_path with
  | .error e =>
    (textResult ("Error occurred during image conditioning: " ++ e.message),
     logErr w "Error in image conditioning:")
  | .ok imageBuffer =>
    runGenerateAndSave env
      "Image conditioning completed successfully. Saved location: "
      "Error occurred during image conditioning: "
      "Error in image conditioning:"
      (.conditioning (env.b64enc imageBuffer) p.prompt p.negative_prompt
        p.control_mode 1 p.height p.width p.cfg_scale)
      p.open_browser p.output_path remote w

/-- JS truthiness of the optional `reference_image_path`: the read happens
only when the field is present and non-empty. -/
def strTruthy : Option String → Option String
  | some s => if s = "" then none else some s
  | none => none

/-- `colorGuidedGeneration` (color_guided_generation.ts): optionally read
and encode the reference image, then the common generate-and-save tail. -/
def colorGuidedGeneration (env : Env) (p : ColorGuidedGenerationParams)
    (remote : RemoteOutcome) (w : World) : CallToolResult × World :=
  match strTruthy p.reference_image_path with
  | some rp =>
    match readFile w rp with
    | .error e =>
      (textResult ("Error occurred during color guided generation: " ++ e.message),
       logErr w "Error in color guided generation:")
    | .ok imageBuffer =>
      runGenerateAndSave env
        "Color guided image generated successfully. Saved location: "
        "Error occurred during color guided generation: "
        "Error in color guided generation:"
        (.colorGuided p.prompt p.negative_prompt p.colors
          (some (env.b64enc imageBuffer)) p.height p.width 1 p.cfg_scale)
        p.open_browser p.output_path remote w
  | none =>
    runGenerateAndSave env
      "Color guided image generated successfully. Saved location: "
      "Error occurred during color guided generation: "
      "Error in color guided generation:"
      (.colorGuided p.prompt p.negative_prompt p.colors none
        p.height p.width 1 p.cfg_scale)
      p.open_browser p.output_path remote w

/-- `backgroundRemoval` (background_removal.ts): read and encode the
original image; the body has no imageGenerationConfig. -/
def backgroundRemoval (env : Env) (p : BackgroundRemovalParams)
    (remote : RemoteOutcome) (w : World) : CallToolResult × World :=
  match readFile w p.image_path with
  | .error e =>
    (textResult ("Error occurred while removing background: " ++ e.message),
     logErr w "Error in background removal:")
  | .ok imageBuffer =>
    runGenerateAndSave env
      "Background removed successfully. Saved location: "
      "Error occurred while removing background: "
      "Error in background removal:"
      (.bgRemoval (env.b64enc imageBuffer))
      p.open_browser p.output_path remote w

/-! ### Component lemmas about the storage layer -/

lemma logErr_files (w : World) (m : String) : (logErr w m).files = w.files := rfl

lemma logErr_cache (w : World) (m : String) : (logErr w m).cache = w.cache := rfl

lemma logErr_nextId (w : World) (m : String) : (logErr w m).nextId = w.nextId := rfl

lemma logErr_remoteCalls (w : World) (m : String) :
    (logErr w m).remoteCalls = w.remoteCalls := rfl

lemma logErr_sent (w : World) (m : String) : (logErr w m).sent = w.sent := rfl

lemma ensureDir_files (w : World) (d : String) : (ensureDir w d).files = w.files := by
  unfold ensureDir; split <;> rfl

lemma ensureDir_cache (w : World) (d : String) : (ensureDir w d).cache = w.cache := by
  unfold ensureDir; split <;> rfl

lemma ensureDir_badWrites (w : World) (d : String) :
    (ensureDir w d).badWrites = w.badWrites := by
  unfold ensureDir; split <;> rfl

lemma ensureDir_nextId (w : World) (d : String) :
    (ensureDir w d).nextId = w.nextId := by
  unfold ensureDir; split <;> rfl

lemma ensureDir_errLog (w : World) (d : String) :
    (ensureDir w d).errLog = w.errLog := by
  unfold ensureDir; split <;> rfl

lemma ensureDir_remoteCalls (w : World) (d : String) :
    (ensureDir w d).remoteCalls = w.remoteCalls := by
  unfold ensureDir; split <;> rfl

lemma ensureDir_sent (w : World) (d : String) : (ensureDir w d).sent = w.sent := by
  unfold ensureDir; split <;> rfl

lemma ensureDir_dirs (w : World) (d : String) :
    (ensureDir w d).dirs =
      if w.dirs.contains d then w.dirs else prefixesOf d ++ w.dirs := by
  unfold ensureDir; split <;> simp_all

/-- `saveImage` with its lets zeta-expanded, as one explicit conditional. -/
lemma saveImage_def (env : Env) (b : Bytes) (ob : Bool) (op : String) (w : World) :
    saveImage env b ob op w =
      (if (ensureDir { w with nextId := w.nextId + 1 }
            (dirname (resolvePath env (env.idGen w.nextId) op))).badWrites.contains
            (resolvePath env (env.idGen w.nextId) op) then
         (.error (.writeErr (resolvePath env (env.idGen w.nextId) op)),
          logErr (ensureDir { w with nextId := w.nextId + 1 }
            (dirname (resolvePath env (env.idGen w.nextId) op))) "Error saving image:")
       else
         (.ok { imageId := env.idGen w.nextId,
                imagePath := resolvePath env (env.idGen w.nextId) op,
                url := "file://" ++ resolvePath env (env.idGen w.nextId) op },
          (fun w3 =>
            if ob && env.viewerFails (resolvePath env (env.idGen w.nextId) op) then
              logErr w3 ("Error opening image: " ++
                resolvePath env (env.idGen w.nextId) op)
            else w3)
          (let w2 := ensureDir { w with nextId := w.nextId + 1 }
              (dirname (resolvePath env (env.idGen w.nextId) op))
           { w2 with files := (resolvePath env (env.idGen w.nextId) op, b) :: w2.files,
                     cache := (env.idGen w.nextId, b) :: w2.cache }))) := rfl

/-- Success characterization of `saveImage`: the identifier is the fresh
one, the path is the resolved one, the locator is `file://`-prefixed, the
file and the cache each gain exactly the one new entry, the id counter
advances by one, the error log records at most the viewer failure, and
directory creation is skipped when the directory exists. -/
lemma saveImage_ok (env : Env) (b : Bytes) (ob : Bool) (op : String)
    (w : World) (res : ImageResponse)
    (h : (saveImage env b ob op w).1 = .ok res) :
    res.imageId = env.idGen w.nextId ∧
    res.imagePath = resolvePath env (env.idGen w.nextId) op ∧
    res.url = "file://" ++ res.imagePath ∧
    (saveImage env b ob op w).2.files = (res.imagePath, b) :: w.files ∧
    (saveImage env b ob op w).2.cache = (res.imageId, b) :: w.cache ∧
    (saveImage env b ob op w).2.nextId = w.nextId + 1 ∧
    (saveImage env b ob op w).2.errLog =
      (if ob && env.viewerFails res.imagePath then
        ("Error opening image: " ++ res.imagePath) :: w.errLog else w.errLog) ∧
    (saveImage env b ob op w).2.dirs =
      (if w.dirs.contains (dirname res.imagePath) then w.dirs
       else prefixesOf (dirname res.imagePath) ++ w.dirs) := by
  rw [saveImage_def] at h ⊢
  split at h
  next hbad => simp at h
  next hbad =>
    rw [if_neg hbad]
    simp only [Prod.fst] at h
    injection h with h
    subst h
    refine ⟨rfl, rfl, rfl, ?_, ?_, ?_, ?_, ?_⟩ <;>
      · by_cases hv :
          (ob && env.viewerFails (resolvePath env (env.idGen w.nextId) op)) = true <;>
          simp [hv, logErr, ensureDir_files, ensureDir_cache,
            ensureDir_nextId, ensureDir_errLog, ensureDir_dirs]

/-! ### Claim theorems about the storage layer -/

/-- C1: a `saveImage` call that returns an `ImageResponse` with identifier
`id` inserts `{id -> bytes}` into the cache, so a `getImage id` in the same
process returns byte-for-byte the saved bytes, whatever the `outputPath`
argument was. -/
theorem save_then_load_roundtrip (env : Env) (b : Bytes) (ob : Bool)
    (op : String) (w : World) (res : ImageResponse)
    (h : (saveImage env b ob op w).1 = .ok res) :
    (getImage env res.imageId (saveImage env b ob op w).2).1 = .ok b := by
  obtain ⟨_, _, _, _, hcache, _⟩ := saveImage_ok env b ob op w res h
  unfold getImage
  rw [hcache]
  simp [List.lookup]

/-- Witness for C1: a concrete save to an explicit path, then load. -/
theorem save_then_load_roundtrip_witness :
    (saveImage
      ⟨"/work", fun n => String.mk (List.replicate (n + 1) 'a'),
        fun s => s.data.map Char.toNat, fun b => String.mk (b.map Char.ofNat),
        fun _ => true⟩
      [1, 2, 3] true "/tmp/out.png" ⟨[], [], [], [], 0, 0, [], []⟩).1 =
        .ok ⟨"a", "/tmp/out.png", "file:///tmp/out.png"⟩ ∧
    (getImage
      ⟨"/work", fun n => String.mk (List.replicate (n + 1) 'a'),
        fun s => s.data.map Char.toNat, fun b => String.mk (b.map Char.ofNat),
        fun _ => true⟩
      "a"
      (saveImage
        ⟨"/work", fun n => String.mk (List.replicate (n + 1) 'a'),
          fun s => s.data.map Char.toNat, fun b => String.mk (b.map Char.ofNat),
          fun _ => true⟩
        [1, 2, 3] true "/tmp/out.png" ⟨[], [], [], [], 0, 0, [], []⟩).2).1 =
      .ok [1, 2, 3] :=
  ⟨by decide,
   save_then_load_roundtrip _ [1, 2, 3] true "/tmp/out.png"
     ⟨[], [], [], [], 0, 0, [], []⟩ ⟨"a", "/tmp/out.png", "file:///tmp/out.png"⟩
     (by decide)⟩

/-- A concrete environment for evaluating the model: cwd `/work`, a fresh
injective id supply, character-code base64 stand-ins, and a viewer command
that always fails. -/
def env0 : Env :=
  ⟨"/work", fun n => String.mk (List.replicate (n + 1) 'a'),
    fun s => s.data.map Char.toNat, fun b => String.mk (b.map Char.ofNat),
    fun _ => true⟩

/-- The empty starting world. -/
def w0 : World := ⟨[], [], [], [], 0, 0, [], []⟩

/-- The id supply of `env0` never repeats. -/
lemma env0_idGen_injective : Function.Injective env0.idGen := by
  intro a b h
  have hlen := congrArg (fun s => s.data.length) h
  simpa [env0] using hlen

/-- C5: the effective file path of a save is `outputPath` when that is
given (non-empty), else `<imagesDir>/<identifier>.png` with `imagesDir`
the `images` directory under the process working directory; when the
target directory already exists no directory is created (and no error is
raised — the save still succeeds); the bytes end up at the effective path,
silently overwriting whatever was there, and missing intermediate
directories are created. -/
theorem saveImage_path_resolution (env : Env) (b : Bytes) (ob : Bool)
    (op : String) (w : World) (res : ImageResponse)
    (h : (saveImage env b ob op w).1 = .ok res) :
    imagesDir env = env.cwd ++ "/images" ∧
    (op ≠ "" → res.imagePath = op) ∧
    (op = "" → res.imagePath = imagesDir env ++ "/" ++ res.imageId ++ ".png") ∧
    (saveImage env b ob op w).2.files.lookup res.imagePath = some b ∧
    (w.dirs.contains (dirname res.imagePath) →
      (saveImage env b ob op w).2.dirs = w.dirs) ∧
    (¬ w.dirs.contains (dirname res.imagePath) →
      (saveImage env b ob op w).2.dirs =
        prefixesOf (dirname res.imagePath) ++ w.dirs) := by
  obtain ⟨hid, hpath, _, hfiles, _, _, _, hdirs⟩ := saveImage_ok env b ob op w res h
  refine ⟨rfl, ?_, ?_, ?_, ?_, ?_⟩
  · intro hop
    rw [hpath]
    unfold resolvePath
    rw [if_neg hop]
  · intro hop
    rw [hpath, hid]
    subst hop
    unfold resolvePath
    rw [if_pos rfl]
  · rw [hfiles]
    simp [List.lookup]
  · intro hmem
    rw [hdirs, if_pos hmem]
  · intro hmem
    rw [hdirs, if_neg hmem]

/-- Witness for C5: a concrete save over a pre-existing file at the same
path (overwritten) with the target directory already existing. -/
theorem saveImage_path_resolution_witness :
    (saveImage env0 [9] true "/tmp/out.png"
      { w0 with files := [("/tmp/out.png", [1])], dirs := ["", "/tmp"] }).1 =
      .ok ⟨"a", "/tmp/out.png", "file:///tmp/out.png"⟩ ∧
    (imagesDir env0 = env0.cwd ++ "/images" ∧
     ("/tmp/out.png" ≠ "" →
       (⟨"a", "/tmp/out.png", "file:///tmp/out.png"⟩ : ImageResponse).imagePath =
         "/tmp/out.png") ∧
     ("/tmp/out.png" = "" →
       (⟨"a", "/tmp/out.png", "file:///tmp/out.png"⟩ : ImageResponse).imagePath =
         imagesDir env0 ++ "/" ++ "a" ++ ".png") ∧
     (saveImage env0 [9] true "/tmp/out.png"
       { w0 with files := [("/tmp/out.png", [1])], dirs := ["", "/tmp"] }).2.files.lookup
         "/tmp/out.png" = some [9] ∧
     (({ w0 with files := [("/tmp/out.png", [1])], dirs := ["", "/tmp"] } :
        World).dirs.contains (dirname "/tmp/out.png") →
       (saveImage env0 [9] true "/tmp/out.png"
         { w0 with files := [("/tmp/out.png", [1])], dirs := ["", "/tmp"] }).2.dirs =
         ["", "/tmp"]) ∧
     (¬ ({ w0 with files := [("/tmp/out.png", [1])], dirs := ["", "/tmp"] } :
        World).dirs.contains (dirname "/tmp/out.png") →
       (saveImage env0 [9] true "/tmp/out.png"
         { w0 with files := [("/tmp/out.png", [1])], dirs := ["", "/tmp"] }).2.dirs =
         prefixesOf (dirname "/tmp/out.png") ++ ["", "/tmp"])) :=
  ⟨by decide,
   saveImage_path_resolution env0 [9] true "/tmp/out.png"
     { w0 with files := [("/tmp/out.png", [1])], dirs := ["", "/tmp"] }
     ⟨"a", "/tmp/out.png", "file:///tmp/out.png"⟩ (by decide)⟩

/-- C7: identifiers are drawn from the fresh-name supply at successive
counter values, independently of the bytes and the path, so any two saves
in one process return distinct identifiers as long as the supply never
repeats (the determinization of `crypto.randomUUID`). -/
theorem save_ids_distinct (env : Env) (b₁ b₂ : Bytes) (o₁ o₂ : Bool)
    (p₁ p₂ : String) (w : World) (res₁ res₂ : ImageResponse)
    (hinj : Function.Injective env.idGen)
    (h₁ : (saveImage env b₁ o₁ p₁ w).1 = .ok res₁)
    (h₂ : (saveImage env b₂ o₂ p₂ (saveImage env b₁ o₁ p₁ w).2).1 = .ok res₂) :
    res₁.imageId = env.idGen w.nextId ∧
    res₂.imageId = env.idGen (w.nextId + 1) ∧
    res₁.imageId ≠ res₂.imageId := by
  obtain ⟨hid₁, _, _, _, _, hnext₁, _⟩ := saveImage_ok env b₁ o₁ p₁ w res₁ h₁
  obtain ⟨hid₂, _⟩ := saveImage_ok env b₂ o₂ p₂ _ res₂ h₂
  rw [hnext₁] at hid₂
  refine ⟨hid₁, hid₂, ?_⟩
  rw [hid₁, hid₂]
  intro hEq
  have := hinj hEq
  omega

/-- Witness for C7: two saves of identical bytes to identical paths yield
the distinct identifiers `a` and `aa`. -/
theorem save_ids_distinct_witness :
    Function.Injective env0.idGen ∧
    (saveImage env0 [5] true "/tmp/x.png" w0).1 =
      .ok ⟨"a", "/tmp/x.png", "file:///tmp/x.png"⟩ ∧
    (saveImage env0 [5] true "/tmp/x.png" (saveImage env0 [5] true "/tmp/x.png" w0).2).1 =
      .ok ⟨"aa", "/tmp/x.png", "file:///tmp/x.png"⟩ ∧
    ((⟨"a", "/tmp/x.png", "file:///tmp/x.png"⟩ : ImageResponse).imageId =
        env0.idGen w0.nextId ∧
      (⟨"aa", "/tmp/x.png", "file:///tmp/x.png"⟩ : ImageResponse).imageId =
        env0.idGen (w0.nextId + 1) ∧
      (⟨"a", "/tmp/x.png", "file:///tmp/x.png"⟩ : ImageResponse).imageId ≠
        (⟨"aa", "/tmp/x.png", "file:///tmp/x.png"⟩ : ImageResponse).imageId) :=
  ⟨env0_idGen_injective, by decide, by decide,
   save_ids_distinct env0 [5] [5] true true "/tmp/x.png" "/tmp/x.png" w0
     ⟨"a", "/tmp/x.png", "file:///tmp/x.png"⟩
     ⟨"aa", "/tmp/x.png", "file:///tmp/x.png"⟩
     env0_idGen_injective (by decide) (by decide)⟩

/-- C9: after a save to an explicit path, once the cache entry for the
returned identifier is gone (modelled by clearing the cache, as a process
restart does), `getImage` fails with the not-found error even though the
saved file still sits at the explicit path, because the file-system
fallback of `getImage` reads only `<imagesDir>/<identifier>.png`. -/
theorem explicit_path_unreachable_without_cache (env : Env) (b : Bytes)
    (ob : Bool) (op : String) (w : World) (res : ImageResponse)
    (h : (saveImage env b ob op w).1 = .ok res)
    (hdef : (saveImage env b ob op w).2.files.lookup
      (imagesDir env ++ "/" ++ res.imageId ++ ".png") = none) :
    (getImage env res.imageId
      { (saveImage env b ob op w).2 with cache := [] }).1 =
      .error ("Image " ++ res.imageId ++ " not found") ∧
    ({ (saveImage env b ob op w).2 with cache := [] } : World).files.lookup
      res.imagePath = some b := by
  obtain ⟨_, _, _, hfiles, _⟩ := saveImage_ok env b ob op w res h
  constructor
  · unfold getImage
    simp only [List.lookup]
    rw [show ({ (saveImage env b ob op w).2 with cache := [] } : World).files =
      (saveImage env b ob op w).2.files from rfl, hdef]
  · rw [show ({ (saveImage env b ob op w).2 with cache := [] } : World).files =
      (saveImage env b ob op w).2.files from rfl, hfiles]
    simp [List.lookup]

/-- Witness for C9: save to `/tmp/out.png`, clear the cache, and the load
of the returned identifier fails while the file is still present. -/
theorem explicit_path_unreachable_without_cache_witness :
    (saveImage env0 [4] true "/tmp/out.png" w0).1 =
      .ok ⟨"a", "/tmp/out.png", "file:///tmp/out.png"⟩ ∧
    (saveImage env0 [4] true "/tmp/out.png" w0).2.files.lookup
      (imagesDir env0 ++ "/" ++ "a" ++ ".png") = none ∧
    ((getImage env0 "a"
        { (saveImage env0 [4] true "/tmp/out.png" w0).2 with cache := [] }).1 =
        .error ("Image " ++ "a" ++ " not found") ∧
      ({ (saveImage env0 [4] true "/tmp/out.png" w0).2 with cache := [] } :
        World).files.lookup "/tmp/out.png" = some [4]) :=
  ⟨by decide, by decide,
   explicit_path_unreachable_without_cache env0 [4] true "/tmp/out.png" w0
     ⟨"a", "/tmp/out.png", "file:///tmp/out.png"⟩ (by decide) (by decide)⟩

/-- C10: an empty-string `outputPath` is falsy in `outputPath || default`,
so the bytes go to `<imagesDir>/<identifier>.png` (not to the empty path)
and the save succeeds with that default path in the returned record. -/
theorem empty_output_path_uses_default (env : Env) (b : Bytes) (ob : Bool)
    (w : World)
    (hw : w.badWrites.contains
      (imagesDir env ++ "/" ++ env.idGen w.nextId ++ ".png") = false) :
    ∃ res, (saveImage env b ob "" w).1 = .ok res ∧
      res.imagePath = imagesDir env ++ "/" ++ res.imageId ++ ".png" ∧
      res.imagePath ≠ "" ∧
      (saveImage env b ob "" w).2.files.lookup res.imagePath = some b := by
  have hrp : resolvePath env (env.idGen w.nextId) "" =
      imagesDir env ++ "/" ++ env.idGen w.nextId ++ ".png" := by
    unfold resolvePath
    rw [if_pos rfl]
  have h : (saveImage env b ob "" w).1 =
      .ok ⟨env.idGen w.nextId, resolvePath env (env.idGen w.nextId) "",
        "file://" ++ resolvePath env (env.idGen w.nextId) ""⟩ := by
    rw [saveImage_def]
    rw [if_neg (by rw [ensureDir_badWrites, hrp, hw]; exact Bool.false_ne_true)]
  obtain ⟨hid, hpath, _, hfiles, _⟩ := saveImage_ok env b ob "" w _ h
  refine ⟨_, h, ?_, ?_, ?_⟩
  · simp only [hrp, hid]
  · simp only [hrp]
    intro hcontra
    have : (imagesDir env ++ "/" ++ env.idGen w.nextId ++ ".png").data = [] :=
      congrArg String.data hcontra
    simp [String.data_append] at this
  · rw [hfiles]
    simp [List.lookup]

/-- Witness for C10: saving with `outputPath = ""` lands in
`/work/images/a.png`. -/
theorem empty_output_path_uses_default_witness :
    env0.idGen w0.nextId = "a" ∧
    w0.badWrites.contains (imagesDir env0 ++ "/" ++ env0.idGen w0.nextId ++ ".png") =
      false ∧
    (∃ res, (saveImage env0 [8] false "" w0).1 = .ok res ∧
      res.imagePath = imagesDir env0 ++ "/" ++ res.imageId ++ ".png" ∧
      res.imagePath ≠ "" ∧
      (saveImage env0 [8] false "" w0).2.files.lookup res.imagePath = some [8]) :=
  ⟨by decide, by decide,
   empty_output_path_uses_default env0 [8] false w0 (by decide)⟩

/-- Changing only the outcome of the platform viewer command changes
nothing about a save except possibly the error log. -/
lemma saveImage_viewer_indep (env : Env) (v : String → Bool) (b : Bytes)
    (ob : Bool) (op : String) (w : World) :
    (saveImage { env with viewerFails := v } b ob op w).1 =
      (saveImage env b ob op w).1 ∧
    (saveImage { env with viewerFails := v } b ob op w).2.files =
      (saveImage env b ob op w).2.files ∧
    (saveImage { env with viewerFails := v } b ob op w).2.cache =
      (saveImage env b ob op w).2.cache ∧
    (saveImage { env with viewerFails := v } b ob op w).2.dirs =
      (saveImage env b ob op w).2.dirs ∧
    (saveImage { env with viewerFails := v } b ob op w).2.nextId =
      (saveImage env b ob op w).2.nextId := by
  have h2 : ({ env with viewerFails := v } : Env).idGen = env.idGen := rfl
  have h1 : ∀ x y, resolvePath { env with viewerFails := v } x y =
      resolvePath env x y := fun _ _ => rfl
  rw [saveImage_def, saveImage_def]
  simp only [h1, h2]
  by_cases hb : ((ensureDir { w with nextId := w.nextId + 1 }
      (dirname (resolvePath env (env.idGen w.nextId) op))).badWrites.contains
      (resolvePath env (env.idGen w.nextId) op)) = true
  · rw [if_pos hb, if_pos hb]
    exact ⟨rfl, rfl, rfl, rfl, rfl⟩
  · rw [if_neg hb, if_neg hb]
    refine ⟨rfl, ?_, ?_, ?_, ?_⟩ <;>
      · by_cases hv : (ob && v (resolvePath env (env.idGen w.nextId) op)) = true <;>
        by_cases hv2 : (ob && env.viewerFails (resolvePath env (env.idGen w.nextId) op)) = true <;>
        simp [hv, hv2, logErr]

/-- C8: with `openBrowser` true, a failing viewer launch is only logged:
the save returns the very same successful `ImageResponse` and leaves the
same files, cache, directories and id counter whatever the viewer outcome
is, and a viewer failure appends one log entry. -/
theorem viewer_failure_not_propagated (env : Env) (v : String → Bool)
    (b : Bytes) (op : String) (w : World) (res : ImageResponse)
    (h : (saveImage env b true op w).1 = .ok res) :
    (saveImage { env with viewerFails := v } b true op w).1 = .ok res ∧
    (saveImage { env with viewerFails := v } b true op w).2.files =
      (saveImage env b true op w).2.files ∧
    (saveImage { env with viewerFails := v } b true op w).2.cache =
      (saveImage env b true op w).2.cache ∧
    (saveImage { env with viewerFails := v } b true op w).2.nextId =
      (saveImage env b true op w).2.nextId ∧
    (env.viewerFails res.imagePath = true →
      (saveImage env b true op w).2.errLog =
        ("Error opening image: " ++ res.imagePath) :: w.errLog) := by
  obtain ⟨hfst, hfiles, hcache, _, hnext⟩ := saveImage_viewer_indep env v b true op w
  obtain ⟨_, _, _, _, _, _, hlog, _⟩ := saveImage_ok env b true op w res h
  refine ⟨hfst.trans h, hfiles, hcache, hnext, ?_⟩
  intro hv
  rw [hlog]
  simp [hv]

/-- Witness for C8: the failing viewer of `env0` versus an always-working
viewer produce the same record and state, and the failure is logged. -/
theorem viewer_failure_not_propagated_witness :
    (saveImage env0 [6] true "/tmp/v.png" w0).1 =
      .ok ⟨"a", "/tmp/v.png", "file:///tmp/v.png"⟩ ∧
    ((saveImage { env0 with viewerFails := fun _ => false } [6] true "/tmp/v.png" w0).1 =
        .ok ⟨"a", "/tmp/v.png", "file:///tmp/v.png"⟩ ∧
      (saveImage { env0 with viewerFails := fun _ => false } [6] true "/tmp/v.png" w0).2.files =
        (saveImage env0 [6] true "/tmp/v.png" w0).2.files ∧
      (saveImage { env0 with viewerFails := fun _ => false } [6] true "/tmp/v.png" w0).2.cache =
        (saveImage env0 [6] true "/tmp/v.png" w0).2.cache ∧
      (saveImage { env0 with viewerFails := fun _ => false } [6] true "/tmp/v.png" w0).2.nextId =
        (saveImage env0 [6] true "/tmp/v.png" w0).2.nextId ∧
      (env0.viewerFails
          ((⟨"a", "/tmp/v.png", "file:///tmp/v.png"⟩ : ImageResponse).imagePath) = true →
        (saveImage env0 [6] true "/tmp/v.png" w0).2.errLog =
          ("Error opening image: " ++
            (⟨"a", "/tmp/v.png", "file:///tmp/v.png"⟩ : ImageResponse).imagePath) ::
            w0.errLog)) :=
  ⟨by decide,
   viewer_failure_not_propagated env0 (fun _ => false) [6] "/tmp/v.png" w0
     ⟨"a", "/tmp/v.png", "file:///tmp/v.png"⟩ (by decide)⟩

/-! ### Claim theorems about the tool handlers -/

/-- A handler outcome is always a single text-content item: either the
tool's success message followed by the saved path, or the tool's error
message followed by the `.message` of the caught error. -/
def wellFormedResult (sOk ePfx : String) (res : CallToolResult) : Prop :=
  (∃ loc, res = textResult (sOk ++ loc)) ∨
  (∃ e : Err, res = textResult (ePfx ++ e.message))

lemma runGenerateAndSave_wf (env : Env) (sOk ePfx logTag : String)
    (body : Payload) (ob : Bool) (op : String) (remote : RemoteOutcome)
    (w : World) :
    wellFormedResult sOk ePfx
      (runGenerateAndSave env sOk ePfx logTag body ob op remote w).1 := by
  unfold runGenerateAndSave
  rcases hg : generateImage env body remote w with ⟨ge, w1⟩
  cases ge with
  | error e => exact Or.inr ⟨e, rfl⟩
  | ok imageBytes =>
    dsimp only
    rcases hs : saveImage env imageBytes ob op w1 with ⟨se, w2⟩
    cases se with
    | error e => exact Or.inr ⟨e, rfl⟩
    | ok info => exact Or.inl ⟨info.imagePath, rfl⟩

lemma textToImage_wf (env : Env) (p : TextToImageParams)
    (remote : RemoteOutcome) (w : World) :
    wellFormedResult "Image generated successfully. Saved location: "
      "Error occurred while generating image: " (textToImage env p remote w).1 := by
  unfold textToImage
  exact runGenerateAndSave_wf _ _ _ _ _ _ _ _ _

lemma inpainting_wf (env : Env) (p : InpaintingParams)
    (remote : RemoteOutcome) (w : World) :
    wellFormedResult "Inpainting completed successfully. Saved location: "
      "Error occurred during inpainting: " (inpainting env p remote w).1 := by
  unfold inpainting
  cases hr : readFile w p.image_path with
  | error e => exact Or.inr ⟨e, rfl⟩
  | ok buf => exact runGenerateAndSave_wf _ _ _ _ _ _ _ _ _

lemma outpainting_wf (env : Env) (p : OutpaintingParams)
    (remote : RemoteOutcome) (w : World) :
    wellFormedResult "Outpainting completed successfully. Saved location: "
      "Error occurred during outpainting: " (outpainting env p remote w).1 := by
  unfold outpainting
  cases hr : readFile w p.image_path with
  | error e => exact Or.inr ⟨e, rfl⟩
  | ok buf =>
    cases hm : readFile w p.mask_image_path with
    | error e => exact Or.inr ⟨e, rfl⟩
    | ok mask => exact runGenerateAndSave_wf _ _ _ _ _ _ _ _ _

lemma imageVariation_wf (env : Env) (p : ImageVariationParams)
    (remote : RemoteOutcome) (w : World) :
    wellFormedResult "Image variation generated successfully. Saved location: "
      "Error occurred during image variation: " (imageVariation env p remote w).1 := by
  unfold imageVariation
  cases hr : readImages env w p.image_paths with
  | error e => exact Or.inr ⟨e, rfl⟩
  | ok images => exact runGenerateAndSave_wf _ _ _ _ _ _ _ _ _

lemma imageConditioning_wf (env : Env) (p : ImageConditioningParams)
    (remote : RemoteOutcome) (w : World) :
    wellFormedResult "Image conditioning completed successfully. Saved location: "
      "Error occurred during image conditioning: "
      (imageConditioning env p remote w).1 := by
  unfold imageConditioning
  cases hr : readFile w p.image_path with
  | error e => exact Or.inr ⟨e, rfl⟩
  | ok buf => exact runGenerateAndSave_wf _ _ _ _ _ _ _ _ _

lemma colorGuidedGeneration_wf (env : Env) (p : ColorGuidedGenerationParams)
    (remote : RemoteOutcome) (w : World) :
    wellFormedResult "Color guided image generated successfully. Saved location: "
      "Error occurred during color guided generation: "
      (colorGuidedGeneration env p remote w).1 := by
  unfold colorGuidedGeneration
  cases ht : strTruthy p.reference_image_path with
  | none => exact runGenerateAndSave_wf _ _ _ _ _ _ _ _ _
  | some rp =>
    dsimp only
    cases hr : readFile w rp with
    | error e => exact Or.inr ⟨e, rfl⟩
    | ok buf => exact runGenerateAndSave_wf _ _ _ _ _ _ _ _ _

lemma backgroundRemoval_wf (env : Env) (p : BackgroundRemovalParams)
    (remote : RemoteOutcome) (w : World) :
    wellFormedResult "Background removed successfully. Saved location: "
      "Error occurred while removing background: "
      (backgroundRemoval env p remote w).1 := by
  unfold backgroundRemoval
  cases hr : readFile w p.image_path with
  | error e => exact Or.inr ⟨e, rfl⟩
  | ok buf => exact runGenerateAndSave_wf _ _ _ _ _ _ _ _ _

/-- C2: every one of the seven tool handlers, on every environment, remote
outcome and world, returns a single text-content result — the success
message with the saved path, or the handler's textual error message
carrying the caught error's human-readable `.message`; the handlers are
total functions, so no exception escapes and the process survives every
input-read, remote-invocation and save failure. -/
theorem handlers_catch_every_failure (env : Env) (remote : RemoteOutcome)
    (w : World) :
    (∀ p, wellFormedResult "Image generated successfully. Saved location: "
      "Error occurred while generating image: " (textToImage env p remote w).1) ∧
    (∀ p, wellFormedResult "Inpainting completed successfully. Saved location: "
      "Error occurred during inpainting: " (inpainting env p remote w).1) ∧
    (∀ p, wellFormedResult "Outpainting completed successfully. Saved location: "
      "Error occurred during outpainting: " (outpainting env p remote w).1) ∧
    (∀ p, wellFormedResult "Image variation generated successfully. Saved location: "
      "Error occurred during image variation: " (imageVariation env p remote w).1) ∧
    (∀ p, wellFormedResult "Image conditioning completed successfully. Saved location: "
      "Error occurred during image conditioning: " (imageConditioning env p remote w).1) ∧
    (∀ p, wellFormedResult "Color guided image generated successfully. Saved location: "
      "Error occurred during color guided generation: "
      (colorGuidedGeneration env p remote w).1) ∧
    (∀ p, wellFormedResult "Background removed successfully. Saved location: "
      "Error occurred while removing background: "
      (backgroundRemoval env p remote w).1) :=
  ⟨fun p => textToImage_wf env p remote w,
   fun p => inpainting_wf env p remote w,
   fun p => outpainting_wf env p remote w,
   fun p => imageVariation_wf env p remote w,
   fun p => imageConditioning_wf env p remote w,
   fun p => colorGuidedGeneration_wf env p remote w,
   fun p => backgroundRemoval_wf env p remote w⟩

/-- When some referenced path is unreadable, the read loop of
image_variation returns the read error of a missing path (the first such)
without producing any partial list. -/
lemma readImages_error_of_missing (env : Env) (w : World) :
    ∀ ps : List String, (∃ q ∈ ps, w.files.lookup q = none) →
      ∃ q, q ∈ ps ∧ w.files.lookup q = none ∧
        readImages env w ps = .error (.readErr q) := by
  intro ps
  induction ps with
  | nil =>
    rintro ⟨q, hq, -⟩
    exact absurd hq (List.not_mem_nil q)
  | cons p ps ih =>
    rintro ⟨q, hq, hnone⟩
    by_cases hp : w.files.lookup p = none
    · refine ⟨p, List.mem_cons_self p ps, hp, ?_⟩
      have hrf : readFile w p = .error (.readErr p) := by
        unfold readFile
        rw [hp]
      unfold readImages
      rw [hrf]
    · obtain ⟨b, hb⟩ := Option.ne_none_iff_exists'.mp hp
      have hqps : q ∈ ps := by
        rcases List.mem_cons.mp hq with h | h
        · exact absurd (h ▸ hnone) hp
        · exact h
      obtain ⟨r, hr, hrnone, hrd⟩ := ih ⟨q, hqps, hnone⟩
      refine ⟨r, List.mem_cons_of_mem _ hr, hrnone, ?_⟩
      have hrf : readFile w p = .ok b := by
        unfold readFile
        rw [hb]
      unfold readImages
      rw [hrf, hrd]

/-- C3: an image_variation request one of whose `image_paths` cannot be
read aborts with that path's read error — a different error class from
remote-invocation errors — and the world is left with the same remote-call
count, the same submitted payloads and the same files: the remote model is
never invoked and no partial payload is submitted. -/
theorem imageVariation_aborts_on_failed_read (env : Env)
    (p : ImageVariationParams) (remote : RemoteOutcome) (w : World)
    (h : ∃ q ∈ p.image_paths, w.files.lookup q = none) :
    ∃ q, q ∈ p.image_paths ∧ w.files.lookup q = none ∧
      imageVariation env p remote w =
        (textResult ("Error occurred during image variation: " ++
          Err.message (.readErr q)),
         logErr w "Error in image variation:") ∧
      (imageVariation env p remote w).2.remoteCalls = w.remoteCalls ∧
      (imageVariation env p remote w).2.sent = w.sent ∧
      (∀ m, (Err.readErr q : Err) ≠ .remoteErr m) := by
  obtain ⟨q, hq, hnone, hrd⟩ := readImages_error_of_missing env w p.image_paths h
  have heq : imageVariation env p remote w =
      (textResult ("Error occurred during image variation: " ++
        Err.message (.readErr q)),
       logErr w "Error in image variation:") := by
    unfold imageVariation
    rw [hrd]
  refine ⟨q, hq, hnone, heq, ?_, ?_, ?_⟩
  · rw [heq]
    rfl
  · rw [heq]
    rfl
  · intro m
    simp

/-- Witness for C3: two paths, the second missing; the handler reports the
read error and the remote model is untouched. -/
theorem imageVariation_aborts_on_failed_read_witness :
    (∃ q ∈ ["/a.png", "/b.png"], ({ w0 with files := [("/a.png", [1])] } :
      World).files.lookup q = none) ∧
    (∃ q, q ∈ ["/a.png", "/b.png"] ∧
      ({ w0 with files := [("/a.png", [1])] } : World).files.lookup q = none ∧
      imageVariation env0 ⟨["/a.png", "/b.png"], "", "", 7/10, 512, 512, 8,
          false, "/o.png"⟩
        (.response (some ["img"]) none) { w0 with files := [("/a.png", [1])] } =
        (textResult ("Error occurred during image variation: " ++
          Err.message (.readErr q)),
         logErr { w0 with files := [("/a.png", [1])] } "Error in image variation:") ∧
      (imageVariation env0 ⟨["/a.png", "/b.png"], "", "", 7/10, 512, 512, 8,
          false, "/o.png"⟩
        (.response (some ["img"]) none)
        { w0 with files := [("/a.png", [1])] }).2.remoteCalls =
        ({ w0 with files := [("/a.png", [1])] } : World).remoteCalls ∧
      (imageVariation env0 ⟨["/a.png", "/b.png"], "", "", 7/10, 512, 512, 8,
          false, "/o.png"⟩
        (.response (some ["img"]) none)
        { w0 with files := [("/a.png", [1])] }).2.sent =
        ({ w0 with files := [("/a.png", [1])] } : World).sent ∧
      (∀ m, (Err.readErr q : Err) ≠ .remoteErr m)) :=
  ⟨by decide,
   imageVariation_aborts_on_failed_read env0
     ⟨["/a.png", "/b.png"], "", "", 7/10, 512, 512, 8, false, "/o.png"⟩
     (.response (some ["img"]) none) { w0 with files := [("/a.png", [1])] }
     (by decide)⟩

/-- C4: when the remote call resolves but the decoded response carries no
usable image (its `images` array has no truthy first element and its
`image` field is not truthy either), `generateImage` fails with the
`No image data in response` error; run through the inpainting handler this
becomes a text result carrying that message, and no file is written and no
cache entry is created. -/
theorem no_image_data_yields_text_error (env : Env) (p : InpaintingParams)
    (images : Option (List String)) (image : Option String) (w : World)
    (hread : ∃ buf, w.files.lookup p.image_path = some buf)
    (hunusable : jsOr (images.bind List.head?) image = none ∨
      jsOr (images.bind List.head?) image = some "") :
    Err.message .noImageData = "No image data in response" ∧
    (∀ body, (generateImage env body (.response images image) w).1 =
      .error .noImageData) ∧
    (inpainting env p (.response images image) w).1 =
      textResult ("Error occurred during inpainting: " ++
        Err.message .noImageData) ∧
    (inpainting env p (.response images image) w).2.files = w.files ∧
    (inpainting env p (.response images image) w).2.cache = w.cache := by
  have hgen : ∀ (body : Payload) (w' : World),
      generateImage env body (.response images image) w' =
        (.error .noImageData,
         logErr
           { w' with
             remoteCalls := w'.remoteCalls + 1
             sent := body :: w'.sent }
           "Error generating image:") := by
    intro body w'
    unfold generateImage
    dsimp only
    rcases hunusable with hcase | hcase
    · rw [hcase]
    · rw [hcase]
      rfl
  obtain ⟨buf, hbuf⟩ := hread
  have hrf : readFile w p.image_path = .ok buf := by
    unfold readFile
    rw [hbuf]
  have hinp : inpainting env p (.response images image) w =
      (textResult ("Error occurred during inpainting: " ++
        Err.message .noImageData),
       logErr
         (logErr
           { w with
             remoteCalls := w.remoteCalls + 1
             sent := Payload.inpaint (env.b64enc buf) p.prompt p.negative_prompt
               p.mask_prompt 1 p.height p.width p.cfg_scale :: w.sent }
           "Error generating image:")
         "Error in inpainting:") := by
    unfold inpainting
    rw [hrf]
    dsimp only
    unfold runGenerateAndSave
    rw [hgen]
  refine ⟨rfl, ?_, ?_, ?_, ?_⟩
  · intro body
    rw [hgen]
  · rw [hinp]
  · rw [hinp]
    rfl
  · rw [hinp]
    rfl

/-- Witness for C4: a stub response whose `images` is the empty array and
whose `image` field is absent. -/
theorem no_image_data_yields_text_error_witness :
    (∃ buf, ({ w0 with files := [("/img.png", [1])] } : World).files.lookup
      "/img.png" = some buf) ∧
    (jsOr ((some ([] : List String)).bind List.head?) none = none ∨
      jsOr ((some ([] : List String)).bind List.head?) none = some "") ∧
    (Err.message .noImageData = "No image data in response" ∧
      (∀ body, (generateImage env0 body (.response (some []) none)
        { w0 with files := [("/img.png", [1])] }).1 = .error .noImageData) ∧
      (inpainting env0 ⟨"/img.png", "cat", "sky", "/out.png", "", 512, 512, 8, true⟩
        (.response (some []) none) { w0 with files := [("/img.png", [1])] }).1 =
        textResult ("Error occurred during inpainting: " ++
          Err.message .noImageData) ∧
      (inpainting env0 ⟨"/img.png", "cat", "sky", "/out.png", "", 512, 512, 8, true⟩
        (.response (some []) none)
        { w0 with files := [("/img.png", [1])] }).2.files =
        ({ w0 with files := [("/img.png", [1])] } : World).files ∧
      (inpainting env0 ⟨"/img.png", "cat", "sky", "/out.png", "", 512, 512, 8, true⟩
        (.response (some []) none)
        { w0 with files := [("/img.png", [1])] }).2.cache =
        ({ w0 with files := [("/img.png", [1])] } : World).cache) :=
  ⟨⟨[1], by decide⟩, Or.inl (by decide),
   no_image_data_yields_text_error env0
     ⟨"/img.png", "cat", "sky", "/out.png", "", 512, 512, 8, true⟩
     (some []) none { w0 with files := [("/img.png", [1])] }
     ⟨[1], by decide⟩ (Or.inl (by decide))⟩

/-- C6: the extraction `responseBody.images?.[0] || responseBody.image`
takes the first element of `images` when that is usable and falls back to
the `image` field otherwise; run through `textToImage`, a response carrying
any further images `xs` — under any requested `num_images` — still yields
exactly one extracted image (the first) and exactly one saved file and one
cache entry, holding the bytes decoded from that first image. -/
theorem single_image_extracted_and_saved (env : Env) (p : TextToImageParams)
    (x : String) (xs : List String) (img : Option String) (w : World)
    (hx : x ≠ "")
    (hw : w.badWrites.contains
      (resolvePath env (env.idGen w.nextId) p.output_path) = false) :
    jsOr ((some (x :: xs)).bind List.head?) img = some x ∧
    (∀ im : Option String,
      jsOr ((some ([] : List String)).bind List.head?) im = im ∧
      jsOr ((none : Option (List String)).bind List.head?) im = im ∧
      jsOr ((some ("" :: xs)).bind List.head?) im = im) ∧
    ∃ res : ImageResponse, (textToImage env p (.response (some (x :: xs)) img) w).1 =
        textResult ("Image generated successfully. Saved location: " ++
          res.imagePath) ∧
      (textToImage env p (.response (some (x :: xs)) img) w).2.files =
        (res.imagePath, env.b64 x) :: w.files ∧
      (textToImage env p (.response (some (x :: xs)) img) w).2.cache =
        (res.imageId, env.b64 x) :: w.cache := by
  have hextract : jsOr ((some (x :: xs)).bind List.head?) img = some x := by
    simp [jsOr, Option.bind, hx]
  set body : Payload := .textImage p.prompt p.negative_prompt p.height p.width
    p.num_images p.cfg_scale p.seed with hbody
  set w1 : World :=
    { w with
      remoteCalls := w.remoteCalls + 1
      sent := body :: w.sent } with hw1
  have hgen : generateImage env body (.response (some (x :: xs)) img) w =
      (.ok (env.b64 x), w1) := by
    unfold generateImage
    dsimp only
    rw [hextract]
    dsimp only
    rw [if_neg hx]
  have hcond : ¬ ((ensureDir { w1 with nextId := w1.nextId + 1 }
      (dirname (resolvePath env (env.idGen w1.nextId) p.output_path))).badWrites.contains
      (resolvePath env (env.idGen w1.nextId) p.output_path) = true) := by
    rw [ensureDir_badWrites]
    intro hcontra
    have hc2 : w.badWrites.contains
        (resolvePath env (env.idGen w.nextId) p.output_path) = true := hcontra
    rw [hw] at hc2
    exact Bool.false_ne_true hc2
  have hsave : (saveImage env (env.b64 x) p.open_browser p.output_path w1).1 =
      .ok ⟨env.idGen w1.nextId,
        resolvePath env (env.idGen w1.nextId) p.output_path,
        "file://" ++ resolvePath env (env.idGen w1.nextId) p.output_path⟩ := by
    rw [saveImage_def]
    rw [if_neg hcond]
  obtain ⟨hid, hpath, _, hfiles, hcache, _⟩ :=
    saveImage_ok env (env.b64 x) p.open_browser p.output_path w1 _ hsave
  have heq : textToImage env p (.response (some (x :: xs)) img) w =
      (textResult ("Image generated successfully. Saved location: " ++
        resolvePath env (env.idGen w1.nextId) p.output_path),
       (saveImage env (env.b64 x) p.open_browser p.output_path w1).2) := by
    unfold textToImage runGenerateAndSave
    rw [← hbody, hgen]
    dsimp only
    rcases hs : saveImage env (env.b64 x) p.open_browser p.output_path w1
      with ⟨se, w2⟩
    rw [hs] at hsave
    cases se with
    | error e => simp at hsave
    | ok info =>
      injection hsave with hsave
      subst hsave
      rfl
  refine ⟨hextract, ?_, ?_⟩
  · intro im
    refine ⟨?_, ?_, ?_⟩ <;> simp [jsOr, Option.bind]
  · refine ⟨⟨env.idGen w1.nextId,
      resolvePath env (env.idGen w1.nextId) p.output_path,
      "file://" ++ resolvePath env (env.idGen w1.nextId) p.output_path⟩,
      ?_, ?_, ?_⟩
    · rw [heq]
    · rw [heq]
      dsimp only
      rw [hfiles]
    · rw [heq]
      dsimp only
      rw [hcache]

/-- Witness for C6: a three-image response to a request that asked for
three images still saves exactly one file, with the bytes of the first
response image. -/
theorem single_image_extracted_and_saved_witness :
    ("i1" ≠ "" ∧
      w0.badWrites.contains
        (resolvePath env0 (env0.idGen w0.nextId) "/tmp/o.png") = false) ∧
    (jsOr ((some ["i1", "i2", "i3"]).bind List.head?) (some "i4") = some "i1" ∧
      (∀ im : Option String,
        jsOr ((some ([] : List String)).bind List.head?) im = im ∧
        jsOr ((none : Option (List String)).bind List.head?) im = im ∧
        jsOr ((some ("" :: ["i2", "i3"])).bind List.head?) im = im) ∧
      ∃ res : ImageResponse,
        (textToImage env0 ⟨"fox", "/tmp/o.png", "", 1024, 1024, 3, 8, 0, true⟩
          (.response (some ["i1", "i2", "i3"]) (some "i4")) w0).1 =
          textResult ("Image generated successfully. Saved location: " ++
            res.imagePath) ∧
        (textToImage env0 ⟨"fox", "/tmp/o.png", "", 1024, 1024, 3, 8, 0, true⟩
          (.response (some ["i1", "i2", "i3"]) (some "i4")) w0).2.files =
          (res.imagePath, env0.b64 "i1") :: w0.files ∧
        (textToImage env0 ⟨"fox", "/tmp/o.png", "", 1024, 1024, 3, 8, 0, true⟩
          (.response (some ["i1", "i2", "i3"]) (some "i4")) w0).2.cache =
          (res.imageId, env0.b64 "i1") :: w0.cache) :=
  ⟨⟨by decide, by decide⟩,
   single_image_extracted_and_saved env0
     ⟨"fox", "/tmp/o.png", "", 1024, 1024, 3, 8, 0, true⟩
     "i1" ["i2", "i3"] (some "i4") w0 (by decide) (by decide)⟩

end NovaCanvas
